import Mathlib

/-!
Verification of the media-gallery and testimonial logic of the site.

The development shallowly embeds the client-side logic of the admin gallery
editors (`src/pages/admin/Carousel.jsx` and the masonry editor), the image
transcoder helpers, and the invite/testimonial workflow
(`src/pages/admin/Testimonials.jsx`, `src/pages/public/TestimonialSubmit.jsx`).
Numbers are embedded as `Nat`/`Int`/`Rat`; fallible remote calls are modelled
by explicit success booleans supplied by an environment, and each handler is a
pure function from the pre-state to the post-state it leaves behind.
-/

/-- JS `String.prototype.trim`: strip whitespace from both ends of a string,
embedded over the character list of the string. -/
def jsTrim (s : String) : String :=
  String.mk (((s.data.dropWhile Char.isWhitespace).reverse.dropWhile Char.isWhitespace).reverse)

/-! ## Ordered Media Collection Manager (Carousel.jsx / masonry editor) -/

/-- One document of the `gallery` (or `masonry`) collection, as produced by
`setDoc` in `onPick`: the generated id, the 1-based `index` order field, and
the binary-derived display fields.  The storage paths are determined by the id
(`gallery/{id}/original.jpg` etc.) and the server timestamps are backend-side
metadata, so neither is carried here. -/
structure MediaItem where
  id : String
  index : Nat
  originalURL : String
  optimizedURL : String
  blurDataURL : String
deriving DecidableEq, Repr

/-- Constant `MAX_IMAGES = 5` of Carousel.jsx. -/
def MAX_IMAGES : Nat := 5

/-- Constant `MAX_MASONRY = 40` of the masonry editor. -/
def MAX_MASONRY : Nat := 40

/-- A file selected in the picker, together with the results that
`uploadOriginalAndOptimized` resolves with for it (the generated doc id and
the download URLs / blur placeholder). -/
structure PickedFile where
  id : String
  originalURL : String
  optimizedURL : String
  blurDataURL : String
deriving DecidableEq, Repr

/-- Reindexing `.map((x, i) => ({ ...x, index: i + 1 }))`: recompute every item
index as its position plus one (used by `onDelete` and `onDrop`). -/
def reindex (l : List MediaItem) : List MediaItem :=
  l.mapIdx fun i x => { x with index := i + 1 }

/-- The document written for the file at position `i` of the selected batch
when the local list had `baseLen` items: `nextIndex = items.length + 1 + i`. -/
def newRecord (baseLen i : Nat) (f : PickedFile) : MediaItem :=
  { id := f.id, index := baseLen + 1 + i,
    originalURL := f.originalURL, optimizedURL := f.optimizedURL,
    blurDataURL := f.blurDataURL }

/-- Handler `onPick` of Carousel.jsx: handle a batch of newly selected files.
Rejects with the "full" alert when `items.length >= MAX_IMAGES`, otherwise
uploads the first `MAX_IMAGES - items.length` files sequentially, writing a
record with `index = items.length + 1 + i` for each.  `okCount` is the number
of sequential iterations that complete before the first failing upload (the
catch branch alerts "Upload failed." and stops the loop); the returned list is
the local list after the realtime snapshot delivers the written records, and
the returned option is the alert shown, if any. -/
def onPick (files : List PickedFile) (okCount : Nat) (items : List MediaItem) :
    List MediaItem × Option String :=
  if files.length = 0 then (items, none)
  else if MAX_IMAGES ≤ items.length then (items, some "Gallery is full (max 5).")
  else
    let slots := max 0 (MAX_IMAGES - items.length)
    let selected := files.take slots
    let written := (selected.mapIdx fun i f => newRecord items.length i f).take okCount
    (items ++ written,
      if okCount < selected.length then some "Upload failed." else none)

/-- Handler `onPick` of the masonry editor: same loop with `MAX_MASONRY` slots, but a
full or empty selection returns silently (`if (!files.length || !canAdd) return`). -/
def masonryOnPick (files : List PickedFile) (okCount : Nat) (items : List MediaItem) :
    List MediaItem × Option String :=
  if files.length = 0 ∨ MAX_MASONRY ≤ items.length then (items, none)
  else
    let slots := MAX_MASONRY - items.length
    let selected := files.take slots
    let written := (selected.mapIdx fun i f => newRecord items.length i f).take okCount
    (items ++ written,
      if okCount < selected.length then some "Upload failed." else none)

/-- Label of the masonry upload button: `canAdd ? "Upload" : "Full"`. -/
def masonryUploadLabel (items : List MediaItem) : String :=
  if items.length < MAX_MASONRY then "Upload" else "Full"

/-- Label of the carousel upload button: `canAdd ? "Upload" : "Full"`. -/
def carouselUploadLabel (items : List MediaItem) : String :=
  if items.length < MAX_IMAGES then "Upload" else "Full"

/-! ### Storage folders and `deleteFolder` -/

/-- A stored binary object, with the outcome its `deleteObject` call would
have (`deleteOk = false` means that call rejects). -/
structure StorageObj where
  name : String
  deleteOk : Bool
deriving DecidableEq, Repr

mutual
/-- A storage "folder" prefix as seen by `listAll`: whether the listing call
succeeds, its direct objects, and its sub-folders. -/
inductive FolderTree : Type where
  | node (listOk : Bool) (objs : List StorageObj) (subs : FolderList)
/-- The list of sub-folders of a folder (`prefixes` of a `listAll` result). -/
inductive FolderList : Type where
  | nil
  | cons (head : FolderTree) (tail : FolderList)
end

mutual
/-- Helper `deleteFolder` of Carousel.jsx: list the folder, delete every object with
failures swallowed (`deleteObject(it).catch(() => {}))`), and recurse into the
sub-folders.  Returns whether the whole promise resolves, and what remains in
storage: objects whose deletion failed stay, and a folder whose listing fails
is left untouched. -/
def deleteFolder : FolderTree → Bool × FolderTree
  | FolderTree.node listOk objs subs =>
    if listOk then
      let objsLeft := objs.filter fun o => !o.deleteOk
      let r := deleteFolderList subs
      (r.fst, FolderTree.node listOk objsLeft r.snd)
    else
      (false, FolderTree.node listOk objs subs)
/-- Step `Promise.all(...map((p) => deleteFolder(p.fullPath)))` of `deleteFolder`: recurse into
every sub-folder; the combined promise resolves only if all of them do. -/
def deleteFolderList : FolderList → Bool × FolderList
  | FolderList.nil => (true, FolderList.nil)
  | FolderList.cons t ts =>
    let r1 := deleteFolder t
    let r2 := deleteFolderList ts
    (r1.fst && r2.fst, FolderList.cons r1.snd r2.snd)
end

mutual
/-- Whether every `listAll` call in the tree succeeds. -/
def allListOk : FolderTree → Bool
  | FolderTree.node listOk _ subs => listOk && allListOkList subs
/-- Predicate `allListOk` over a folder list. -/
def allListOkList : FolderList → Bool
  | FolderList.nil => true
  | FolderList.cons t ts => allListOk t && allListOkList ts
end

/-- Outcomes of the remote calls made by one `onDelete` invocation: the
storage folder of the deleted item, and whether `deleteDoc` and the reindexing
`batch.commit()` succeed. -/
structure DeleteEnv where
  folder : FolderTree
  deleteDocOk : Bool
  batchOk : Bool

/-- What one `onDelete` invocation leaves behind: the local `items` state, the
remote record collection, the remaining storage of the deleted item, and
whether the catch branch ran. -/
structure DeleteResult where
  localItems : List MediaItem
  remoteDocs : List MediaItem
  storageLeft : FolderTree
  failed : Bool

/-- Effect of the reindexing batch on the remote records: each remote document
whose id occurs in `next` gets its `index` merged to the new value. -/
def batchSetIndex (next docs : List MediaItem) : List MediaItem :=
  docs.map fun d =>
    match next.find? (fun y => y.id == d.id) with
    | some y => { d with index := y.index }
    | none => d

/-- Handler `onDelete` of Carousel.jsx: optimistically remove the item locally and
reindex (`prev.filter(x => x.id !== item.id).map((x, i) => ({...x, index: i+1}))`),
then persist: `deleteFolder`, `deleteDoc`, then one reindexing batch commit.
Any rejection reaches the catch branch, which alerts and restores `prev` as
the local state.  `remoteDocs` is the remote record collection before the
call (equal to `items` when no other session interferes). -/
def onDelete (env : DeleteEnv) (remoteDocs items : List MediaItem) (targetId : String) :
    DeleteResult :=
  let prev := items
  let next := reindex (prev.filter fun x => x.id != targetId)
  let f := deleteFolder env.folder
  if f.fst = false then
    { localItems := prev, remoteDocs := remoteDocs, storageLeft := f.snd, failed := true }
  else if env.deleteDocOk = false then
    { localItems := prev, remoteDocs := remoteDocs, storageLeft := f.snd, failed := true }
  else
    let docsAfter := remoteDocs.filter fun x => x.id != targetId
    if env.batchOk = false then
      { localItems := prev, remoteDocs := docsAfter, storageLeft := f.snd, failed := true }
    else
      { localItems := next, remoteDocs := batchSetIndex next docsAfter,
        storageLeft := f.snd, failed := false }

/-- Handler `onDrop` of Carousel.jsx: move the dragged item onto the drop target.
`if (!dragId || dragId === overId) return;` then splice the dragged item out
of its position and back in at the position of the target, and recompute every
index as position plus one.  (The handler only fires on rendered items, so
both ids are found; the fallthrough cases keep the list unchanged.) -/
def onDrop (dragId : Option String) (overId : String) (items : List MediaItem) :
    List MediaItem :=
  match dragId with
  | none => items
  | some d =>
    if d = overId then items
    else
      match items.findIdx? (fun x => x.id == d), items.findIdx? (fun x => x.id == overId) with
      | some fromIdx, some toIdx =>
        match items[fromIdx]? with
        | some moved =>
          reindex ((items.take fromIdx ++ items.drop (fromIdx + 1)).insertIdx toIdx moved)
        | none => items
      | _, _ => items

/-- One user operation of the single-session model: an upload batch (with the
number of iterations that succeed), a delete (with the outcomes of its remote
calls), or a drag-and-drop reorder. -/
inductive GalleryOp : Type where
  | pick (files : List PickedFile) (okCount : Nat)
  | del (targetId : String) (env : DeleteEnv)
  | drag (dragId : Option String) (overId : String)

/-- The local `items` state after one operation completes (for `del`, the
remote collection coincides with the local one in the single-session model). -/
def applyOp (s : List MediaItem) : GalleryOp → List MediaItem
  | GalleryOp.pick files okCount => (onPick files okCount s).fst
  | GalleryOp.del targetId env => (onDelete env s s targetId).localItems
  | GalleryOp.drag dragId overId => onDrop dragId overId s

/-- The local state after a whole sequence of operations. -/
def applyOps (ops : List GalleryOp) (s : List MediaItem) : List MediaItem :=
  ops.foldl applyOp s

/-- The index-density invariant: the `index` fields read in display order are
exactly `1, 2, ..., N` — no duplicate, no gap. -/
def contiguous (l : List MediaItem) : Prop :=
  l.map (fun x => x.index) = List.range' 1 l.length

instance (l : List MediaItem) : Decidable (contiguous l) := by
  unfold contiguous; infer_instance

/-! ## Image Transcoder (Carousel.jsx image helpers) -/

/-- An input image file: the declared media type, the byte size, and the
pixel dimensions of the decoded bitmap (`createImageBitmap`). -/
structure ImgFile where
  type : String
  size : Nat
  width : Nat
  height : Nat
deriving DecidableEq, Repr

/-- Constant `OPT_MAX_DIM = 2400`. -/
def OPT_MAX_DIM : Nat := 2400

/-- Constant `OPT_QUALITY = 0.9`. -/
def OPT_QUALITY : Rat := 9 / 10

/-- Constant `TINY_DIM = 20`. -/
def TINY_DIM : Nat := 20

/-- Predicate `shouldSkipOptimization`: the file already is a modest JPEG — declared
type `image/jpeg`, longer edge at most 2200, size at most `2.5 * 1024 * 1024`
bytes (the byte size is an integer, and 2.5 MiB is exactly 2621440, so the
JS float comparison coincides with the integer one). -/
def shouldSkipOptimization (f : ImgFile) : Bool :=
  f.type == "image/jpeg"
    && decide (max f.width f.height ≤ 2200)
    && decide (f.size ≤ 2621440)

/-- The scale factor of `drawToCanvas`:
`Math.min(1, maxDim / Math.max(width, height))`. -/
def scaleFor (maxDim w h : Nat) : Rat :=
  min 1 ((maxDim : Rat) / (max w h : Rat))

/-- One canvas dimension: `Math.max(1, Math.round(d * scale))` (JS rounds
half-up on these nonnegative values, which is `round` on `Rat`). -/
def canvasDim (d : Nat) (scale : Rat) : Nat :=
  (max 1 (round ((d : Rat) * scale))).toNat

/-- The pixel dimensions of the canvas produced by `drawToCanvas`. -/
def drawToCanvasDims (maxDim w h : Nat) : Nat × Nat :=
  let scale := scaleFor maxDim w h
  (canvasDim w scale, canvasDim h scale)

/-- A binary produced by the transcoder: either the original file object
reused verbatim, or a canvas re-encoded as JPEG at the given dimensions and
quality. -/
inductive Blob : Type where
  | orig (f : ImgFile)
  | jpeg (w h : Nat) (quality : Rat)
deriving DecidableEq, Repr

/-- The result of `makeOptimizedAndBlur`: the optimized variant and the tiny
blur placeholder (which is base64-inlined by the caller). -/
structure OptOut where
  optimizedBlob : Blob
  blurBlob : Blob
deriving DecidableEq, Repr

/-- Function `makeOptimizedAndBlur`: keep the original bytes when
`shouldSkipOptimization` holds, otherwise re-encode the `OPT_MAX_DIM` canvas
at `OPT_QUALITY`; independently encode the `TINY_DIM` canvas at quality 0.7
for the blur placeholder. -/
def makeOptimizedAndBlur (f : ImgFile) : OptOut :=
  let optimizedBlob :=
    if shouldSkipOptimization f then
      Blob.orig f
    else
      let d := drawToCanvasDims OPT_MAX_DIM f.width f.height
      Blob.jpeg d.fst d.snd OPT_QUALITY
  let t := drawToCanvasDims TINY_DIM f.width f.height
  { optimizedBlob := optimizedBlob, blurBlob := Blob.jpeg t.fst t.snd (7 / 10) }

/-! ## Invite / Testimonial workflow -/

/-- The derived lifecycle state of an invite. -/
inductive InviteStatus : Type where
  | done
  | expired
  | pending
deriving DecidableEq, Repr

/-- Status derivation of the admin invite list (Testimonials.jsx): compute
`isExpired = Date.now() >= expiresAt`, then try to fetch the testimonial with
the same token: if the fetch succeeds, `done` when it exists, else `expired`
or `pending` by the deadline; if the fetch itself fails, fall back to
`expired`/`pending`. -/
def inviteStatus (checkOk testimonialExists : Bool) (nowMs expMs : Int) : InviteStatus :=
  let isExpired := decide (expMs ≤ nowMs)
  if checkOk then
    if testimonialExists then InviteStatus.done
    else if isExpired then InviteStatus.expired
    else InviteStatus.pending
  else
    if isExpired then InviteStatus.expired
    else InviteStatus.pending

/-- The document written by `createInvite` into `testimonialInvites`. -/
structure InviteRecord where
  token : String
  adminUid : String
  event : String
  clientName : String
  eventPlace : Option String
  eventDate : Option Int
  avatarUrl : String
  createdAt : Int
  expiresAt : Int
deriving DecidableEq, Repr

/-- Handler `createInvite` of Testimonials.jsx: require a non-blank event and client
name and a non-empty avatar URL, then write the invite record.  `clientNowMs`
is the client clock reading (`Date.now()`) when the handler runs, and
`serverNowMs` is the server clock value that `serverTimestamp()` resolves to
at commit time: `expiresAt = Timestamp.fromMillis(Date.now() + 24*60*60*1000)`
is computed from the client clock, while `createdAt` is server-assigned.
Returns `none` when validation fails (no write happens). -/
def createInvite (clientNowMs serverNowMs : Int) (token adminUid eventName clientName eventPlace : String)
    (eventDate : Option Int) (avatarUrl : String) : Option InviteRecord :=
  if jsTrim eventName = "" ∨ jsTrim clientName = "" then none
  else if avatarUrl = "" then none
  else some
    { token := token
      adminUid := adminUid
      event := jsTrim eventName
      clientName := jsTrim clientName
      eventPlace := if jsTrim eventPlace = "" then none else some (jsTrim eventPlace)
      eventDate := eventDate
      avatarUrl := avatarUrl
      createdAt := serverNowMs
      expiresAt := clientNowMs + 24 * 60 * 60 * 1000 }

/-- The invite data read by the public submission page (the fields `onSubmit`
uses). -/
structure Invite where
  clientName : String
  event : String
  expiresAt : Int
deriving DecidableEq, Repr

/-- The document written into `testimonials`, keyed by the invite token
(`submittedAt` is backend-assigned metadata and is not carried). -/
structure Testimonial where
  token : String
  fullName : String
  event : String
  stars : Nat
  description : String
deriving DecidableEq, Repr

/-- The state of one submission session: the `alreadyUsed` and `submitted`
flags, the current error message, and the remote `testimonials/{token}`
document (`none` when absent). -/
structure SubmitState where
  alreadyUsed : Bool
  submitted : Bool
  error : Option String
  remote : Option Testimonial
deriving DecidableEq, Repr

/-- The `expired` memo of TestimonialSubmit.jsx: `Date.now() >= expiresAt`. -/
def submitExpired (inv : Invite) (nowMs : Int) : Bool :=
  decide (inv.expiresAt ≤ nowMs)

/-- Handler `onSubmit` of TestimonialSubmit.jsx: clear the error; reject when the
invite is expired or already used; reject when the invite names, the trimmed
description, or the star rating (outside 1..5) fail validation — in both
cases before any remote call; otherwise write the testimonial keyed by the
token and mark the session used.  `writeOk` is whether that `setDoc`
resolves (its catch branch sets the failure message and writes nothing). -/
def onSubmit (token : String) (inv : Invite) (nowMs : Int) (writeOk : Bool)
    (stars : Nat) (description : String) (s : SubmitState) : SubmitState :=
  let s0 := { s with error := none }
  if submitExpired inv nowMs || s0.alreadyUsed then
    { s0 with error := some "This link has already been used." }
  else
    let fullName := jsTrim inv.clientName
    let event := jsTrim inv.event
    if fullName == "" || event == "" || jsTrim description == ""
        || decide (stars < 1) || decide (5 < stars) then
      { s0 with error := some "Please add a rating (1–5) and description." }
    else if writeOk then
      { s0 with
        remote := some
          { token := token, fullName := fullName, event := event,
            stars := stars, description := jsTrim description }
        submitted := true
        alreadyUsed := true }
    else
      { s0 with error := some "Submission failed. This link may have already been used." }

/-! ## Helper lemmas about reindexing and index ranges -/

theorem length_reindex (l : List MediaItem) : (reindex l).length = l.length := by
  simp [reindex]

theorem map_index_reindex (l : List MediaItem) :
    ((reindex l).map fun x => x.index) = List.range' 1 l.length := by
  apply List.ext_getElem
  · simp [reindex]
  · intro n h1 h2
    simp [reindex, List.getElem_mapIdx, List.getElem_range']
    omega

theorem map_id_reindex (l : List MediaItem) :
    ((reindex l).map fun x => x.id) = l.map fun x => x.id := by
  apply List.ext_getElem
  · simp [reindex]
  · intro n h1 h2
    simp [reindex, List.getElem_mapIdx]

theorem map_index_newRecords (files : List PickedFile) (b : Nat) :
    ((files.mapIdx fun i f => newRecord b i f).map fun x => x.index)
      = List.range' (b + 1) files.length := by
  apply List.ext_getElem
  · simp
  · intro n h1 h2
    simp [List.getElem_mapIdx, newRecord, List.getElem_range']

theorem range'_take (s n k : Nat) :
    (List.range' s n).take k = List.range' s (min k n) := by
  apply List.ext_getElem
  · simp [List.length_take]
  · intro i h1 h2
    simp [List.getElem_take, List.getElem_range']

theorem contiguous_reindex (l : List MediaItem) : contiguous (reindex l) := by
  unfold contiguous
  rw [map_index_reindex, length_reindex]

theorem contiguous_append {l l2 : List MediaItem} (h : contiguous l)
    (h2 : (l2.map fun x => x.index) = List.range' (l.length + 1) l2.length) :
    contiguous (l ++ l2) := by
  unfold contiguous at h ⊢
  rw [List.map_append, h, h2, List.length_append]
  have := List.range'_append 1 l.length l2.length 1
  simpa [Nat.add_comm] using this

theorem contiguous_onPick (files : List PickedFile) (okCount : Nat)
    {items : List MediaItem} (h : contiguous items) :
    contiguous (onPick files okCount items).fst := by
  unfold onPick
  split
  · exact h
  · split
    · exact h
    · apply contiguous_append h
      rw [List.map_take, map_index_newRecords, range'_take]
      simp [List.length_take]

theorem onDelete_localItems_cases (env : DeleteEnv) (docs items : List MediaItem)
    (tid : String) :
    (onDelete env docs items tid).localItems = items ∨
    (onDelete env docs items tid).localItems
      = reindex (items.filter fun x => x.id != tid) := by
  by_cases h1 : (deleteFolder env.folder).fst = false
  · left; simp [onDelete, h1]
  · by_cases h2 : env.deleteDocOk = false
    · left; simp [onDelete, h1, h2]
    · by_cases h3 : env.batchOk = false
      · left; simp [onDelete, h1, h2, h3]
      · right; simp [onDelete, h1, h2, h3]

theorem onDrop_cases (dragId : Option String) (overId : String)
    (items : List MediaItem) :
    onDrop dragId overId items = items ∨
    ∃ l, onDrop dragId overId items = reindex l := by
  cases dragId with
  | none => left; rfl
  | some d =>
    by_cases h1 : d = overId
    · left; simp [onDrop, h1]
    · rcases hf : items.findIdx? (fun x => x.id == d) with _ | fromIdx
      · left; simp [onDrop, h1, hf]
      · rcases ho : items.findIdx? (fun x => x.id == overId) with _ | toIdx
        · left; simp [onDrop, h1, hf, ho]
        · rcases hm : items[fromIdx]? with _ | moved
          · left; simp [onDrop, h1, hf, ho, hm]
          · right
            refine ⟨List.insertIdx toIdx moved
              (List.take fromIdx items ++ List.drop (fromIdx + 1) items), ?_⟩
            simp [onDrop, h1, hf, ho, hm]

theorem contiguous_applyOp (s : List MediaItem) (op : GalleryOp)
    (h : contiguous s) : contiguous (applyOp s op) := by
  cases op with
  | pick files okCount => exact contiguous_onPick files okCount h
  | del targetId env =>
    show contiguous (onDelete env s s targetId).localItems
    rcases onDelete_localItems_cases env s s targetId with h2 | h2 <;> rw [h2]
    · exact h
    · exact contiguous_reindex _
  | drag dragId overId =>
    show contiguous (onDrop dragId overId s)
    rcases onDrop_cases dragId overId s with h2 | ⟨l, h2⟩ <;> rw [h2]
    · exact h
    · exact contiguous_reindex _

/-! ## Claim theorems -/

/-- C1: for every sequence of append (`onPick`), delete (`onDelete`) and
reorder (`onDrop`) operations applied by a single session, starting from a
collection whose `index` values are exactly `1..N`, the `index` values of the
local collection after each operation are exactly `1..N2` for the new item
count `N2`, with no duplicate and no gap: append assigns
`index = items.length + 1 + positionInBatch`, delete and reorder recompute
every remaining index as position plus one. -/
theorem C1_index_density (ops : List GalleryOp) (s : List MediaItem)
    (h : contiguous s) : contiguous (applyOps ops s) := by
  induction ops generalizing s with
  | nil => exact h
  | cons op rest ih => exact ih (applyOp s op) (contiguous_applyOp s op h)

theorem C1_index_density_witness :
    contiguous [(⟨"x", 1, "u", "v", "w"⟩ : MediaItem)] ∧
    contiguous (applyOps
      [GalleryOp.pick [⟨"a", "u", "v", "w"⟩] 1,
       GalleryOp.drag (some "a") "x",
       GalleryOp.del "x" ⟨FolderTree.node true [] FolderList.nil, true, true⟩]
      [⟨"x", 1, "u", "v", "w"⟩]) :=
  ⟨by decide, C1_index_density _ _ (by decide)⟩

/-- C2: append never raises the collection length above its fixed capacity
(5 for the carousel gallery, 40 for masonry).  When the collection is full a
non-empty selection leaves it unchanged and "full" is reported (the carousel
alerts and its button reads "Full"; the masonry button reads "Full"), and when
the remaining capacity is smaller than the batch only the first
`capacity - items.length` files are processed. -/
theorem C2_capacity (files : List PickedFile) (okCount : Nat) (items : List MediaItem) :
    (items.length ≤ MAX_IMAGES → ((onPick files okCount items).fst).length ≤ MAX_IMAGES)
    ∧ (MAX_IMAGES ≤ items.length → 0 < files.length →
        onPick files okCount items = (items, some "Gallery is full (max 5).")
        ∧ carouselUploadLabel items = "Full")
    ∧ (items.length ≤ MAX_MASONRY → ((masonryOnPick files okCount items).fst).length ≤ MAX_MASONRY)
    ∧ (MAX_MASONRY ≤ items.length →
        masonryOnPick files okCount items = (items, none)
        ∧ masonryUploadLabel items = "Full")
    ∧ (items.length < MAX_IMAGES →
        (onPick files okCount items).fst
          = items ++ ((files.take (MAX_IMAGES - items.length)).mapIdx
              fun i f => newRecord items.length i f).take okCount) := by
  refine ⟨?_, ?_, ?_, ?_, ?_⟩
  · intro hle
    unfold onPick
    split
    · exact hle
    · split
      · exact hle
      · simp only [List.length_append, List.length_take, List.length_mapIdx,
          MAX_IMAGES] at *
        omega
  · intro hfull hne
    have h0 : ¬ files.length = 0 := by omega
    constructor
    · simp [onPick, h0, hfull]
    · simp only [carouselUploadLabel]
      rw [if_neg (by omega)]
  · intro hle
    unfold masonryOnPick
    split
    · exact hle
    · simp only [List.length_append, List.length_take, List.length_mapIdx,
        MAX_MASONRY] at *
      omega
  · intro hfull
    constructor
    · simp [masonryOnPick, hfull]
    · simp only [masonryUploadLabel]
      rw [if_neg (by omega)]
  · intro hlt
    unfold onPick
    split
    · rename_i h0
      have : files.take (MAX_IMAGES - items.length) = [] := by
        simp [List.length_eq_zero.mp h0]
      simp [this]
    · split
      · omega
      · have hmax : max 0 (MAX_IMAGES - items.length) = MAX_IMAGES - items.length :=
          Nat.zero_max _
        rw [hmax]

theorem C2_capacity_witness :
    ((onPick [⟨"f", "u", "v", "w"⟩] 1
        [⟨"a", 1, "u", "v", "w"⟩, ⟨"b", 2, "u", "v", "w"⟩, ⟨"c", 3, "u", "v", "w"⟩,
         ⟨"d", 4, "u", "v", "w"⟩, ⟨"e", 5, "u", "v", "w"⟩]).fst).length ≤ MAX_IMAGES
    ∧ onPick [⟨"f", "u", "v", "w"⟩] 1
        [⟨"a", 1, "u", "v", "w"⟩, ⟨"b", 2, "u", "v", "w"⟩, ⟨"c", 3, "u", "v", "w"⟩,
         ⟨"d", 4, "u", "v", "w"⟩, ⟨"e", 5, "u", "v", "w"⟩]
      = ([⟨"a", 1, "u", "v", "w"⟩, ⟨"b", 2, "u", "v", "w"⟩, ⟨"c", 3, "u", "v", "w"⟩,
         ⟨"d", 4, "u", "v", "w"⟩, ⟨"e", 5, "u", "v", "w"⟩], some "Gallery is full (max 5).")
    ∧ carouselUploadLabel
        [⟨"a", 1, "u", "v", "w"⟩, ⟨"b", 2, "u", "v", "w"⟩, ⟨"c", 3, "u", "v", "w"⟩,
         ⟨"d", 4, "u", "v", "w"⟩, ⟨"e", 5, "u", "v", "w"⟩] = "Full" :=
  ⟨(C2_capacity [⟨"f", "u", "v", "w"⟩] 1
      [⟨"a", 1, "u", "v", "w"⟩, ⟨"b", 2, "u", "v", "w"⟩, ⟨"c", 3, "u", "v", "w"⟩,
       ⟨"d", 4, "u", "v", "w"⟩, ⟨"e", 5, "u", "v", "w"⟩]).1 (by decide),
   ((C2_capacity [⟨"f", "u", "v", "w"⟩] 1
      [⟨"a", 1, "u", "v", "w"⟩, ⟨"b", 2, "u", "v", "w"⟩, ⟨"c", 3, "u", "v", "w"⟩,
       ⟨"d", 4, "u", "v", "w"⟩, ⟨"e", 5, "u", "v", "w"⟩]).2.1 (by decide) (by decide)).1,
   ((C2_capacity [⟨"f", "u", "v", "w"⟩] 1
      [⟨"a", 1, "u", "v", "w"⟩, ⟨"b", 2, "u", "v", "w"⟩, ⟨"c", 3, "u", "v", "w"⟩,
       ⟨"d", 4, "u", "v", "w"⟩, ⟨"e", 5, "u", "v", "w"⟩]).2.1 (by decide) (by decide)).2⟩

/-- C4: for a valid drag (both ids present, distinct), `onDrop` produces
exactly the splice-remove-then-insert list with every index recomputed as its
new position plus one; and reorder is the only operation that changes the
relative order of existing items: `onPick` only appends after them, and
`onDelete` leaves the surviving items (before or after rollback) in their
original relative order. -/
theorem C4_reorder (items : List MediaItem) :
    (∀ (d o : String) (fromIdx toIdx : Nat) (hi : fromIdx < items.length),
        items.findIdx? (fun x => x.id == d) = some fromIdx →
        items.findIdx? (fun x => x.id == o) = some toIdx →
        d ≠ o →
        onDrop (some d) o items
          = reindex ((items.eraseIdx fromIdx).insertIdx toIdx items[fromIdx]))
    ∧ (∀ files okCount, ∃ t, (onPick files okCount items).fst = items ++ t)
    ∧ (∀ env docs tid,
        ((onDelete env docs items tid).localItems).map (fun x => x.id)
            = items.map (fun x => x.id)
        ∨ ((onDelete env docs items tid).localItems).map (fun x => x.id)
            = (items.map fun x => x.id).filter (fun s => s != tid)) := by
  refine ⟨?_, ?_, ?_⟩
  · intro d o fromIdx toIdx hi hf ho hne
    have hm : items[fromIdx]? = some items[fromIdx] := List.getElem?_eq_getElem hi
    simp only [onDrop, if_neg hne, hf, ho, hm]
    rw [List.eraseIdx_eq_take_drop_succ]
  · intro files okCount
    unfold onPick
    split
    · exact ⟨[], by simp⟩
    · split
      · exact ⟨[], by simp⟩
      · exact ⟨_, rfl⟩
  · intro env docs tid
    rcases onDelete_localItems_cases env docs items tid with h | h <;> rw [h]
    · left; rfl
    · right
      rw [map_id_reindex]
      rw [List.filter_map]
      rfl

theorem C4_reorder_witness :
    onDrop (some "a") "c"
        [⟨"a", 1, "u", "v", "w"⟩, ⟨"b", 2, "u", "v", "w"⟩, ⟨"c", 3, "u", "v", "w"⟩]
      = reindex ((([⟨"a", 1, "u", "v", "w"⟩, ⟨"b", 2, "u", "v", "w"⟩,
          ⟨"c", 3, "u", "v", "w"⟩] : List MediaItem).eraseIdx 0).insertIdx 2
          ⟨"a", 1, "u", "v", "w"⟩) :=
  (C4_reorder [⟨"a", 1, "u", "v", "w"⟩, ⟨"b", 2, "u", "v", "w"⟩,
      ⟨"c", 3, "u", "v", "w"⟩]).1 "a" "c" 0 2 (by decide) (by decide) (by decide)
    (by decide)

mutual
theorem deleteFolder_fst_eq : ∀ t : FolderTree, (deleteFolder t).fst = allListOk t
  | FolderTree.node listOk objs subs => by
    by_cases h : listOk = true
    · simp [deleteFolder, allListOk, h, deleteFolderList_fst_eq subs]
    · simp [deleteFolder, allListOk, h]
theorem deleteFolderList_fst_eq : ∀ ts : FolderList, (deleteFolderList ts).fst = allListOkList ts
  | FolderList.nil => rfl
  | FolderList.cons t ts => by
    simp [deleteFolderList, allListOkList, deleteFolder_fst_eq t, deleteFolderList_fst_eq ts]
end

/-- C3 counterexample: two items, delete "a", storage removal and `deleteDoc`
succeed but the reindexing batch commit fails.  The operation fails and the
local collection is rolled back to the pre-delete snapshot, but the remote
record collection is NOT left as it was before the delete: the record of "a"
is gone. -/
theorem C3_counterexample :
    (onDelete ⟨FolderTree.node true [] FolderList.nil, true, false⟩
        [⟨"a", 1, "u", "v", "w"⟩, ⟨"b", 2, "u", "v", "w"⟩]
        [⟨"a", 1, "u", "v", "w"⟩, ⟨"b", 2, "u", "v", "w"⟩] "a").failed = true
    ∧ (onDelete ⟨FolderTree.node true [] FolderList.nil, true, false⟩
        [⟨"a", 1, "u", "v", "w"⟩, ⟨"b", 2, "u", "v", "w"⟩]
        [⟨"a", 1, "u", "v", "w"⟩, ⟨"b", 2, "u", "v", "w"⟩] "a").localItems
      = [⟨"a", 1, "u", "v", "w"⟩, ⟨"b", 2, "u", "v", "w"⟩]
    ∧ (onDelete ⟨FolderTree.node true [] FolderList.nil, true, false⟩
        [⟨"a", 1, "u", "v", "w"⟩, ⟨"b", 2, "u", "v", "w"⟩]
        [⟨"a", 1, "u", "v", "w"⟩, ⟨"b", 2, "u", "v", "w"⟩] "a").remoteDocs
      ≠ [⟨"a", 1, "u", "v", "w"⟩, ⟨"b", 2, "u", "v", "w"⟩] := by
  refine ⟨?_, ?_, ?_⟩ <;> decide

/-- C3 (amended): on any failure of a persistence step of the delete, the
local collection is rolled back to the exact pre-delete snapshot (same items,
same indices, same order).  The remote record collection is left exactly as
it was only when the failure occurs at the storage removal or at `deleteDoc`;
when the reindexing batch commit fails after `deleteDoc` succeeded, the remote
collection has lost the deleted record (the remaining records keep their old
indices). -/
theorem C3_delete_rollback (env : DeleteEnv) (docs items : List MediaItem) (tid : String) :
    ((onDelete env docs items tid).failed = true →
        (onDelete env docs items tid).localItems = items)
    ∧ ((deleteFolder env.folder).fst = false ∨ env.deleteDocOk = false →
        (onDelete env docs items tid).remoteDocs = docs)
    ∧ ((deleteFolder env.folder).fst = true → env.deleteDocOk = true →
        env.batchOk = false →
        (onDelete env docs items tid).failed = true
        ∧ (onDelete env docs items tid).remoteDocs
            = docs.filter fun x => x.id != tid) := by
  by_cases h1 : (deleteFolder env.folder).fst = false
  · refine ⟨fun _ => by simp [onDelete, h1], fun _ => by simp [onDelete, h1], ?_⟩
    intro h1t
    rw [h1t] at h1
    exact absurd h1 (by decide)
  · by_cases h2 : env.deleteDocOk = false
    · refine ⟨fun _ => by simp [onDelete, h1, h2], fun _ => by simp [onDelete, h1, h2], ?_⟩
      intro _ h2t
      rw [h2t] at h2
      exact absurd h2 (by decide)
    · by_cases h3 : env.batchOk = false
      · refine ⟨fun _ => by simp [onDelete, h1, h2, h3], ?_, ?_⟩
        · rintro (ha | hb)
          · exact absurd ha h1
          · exact absurd hb h2
        · exact fun _ _ _ => ⟨by simp [onDelete, h1, h2, h3], by simp [onDelete, h1, h2, h3]⟩
      · refine ⟨?_, ?_, ?_⟩
        · intro hf
          simp [onDelete, h1, h2, h3] at hf
        · rintro (ha | hb)
          · exact absurd ha h1
          · exact absurd hb h2
        · intro _ _ h3t
          exact absurd h3t h3

theorem C3_delete_rollback_witness :
    (onDelete ⟨FolderTree.node false [⟨"o", true⟩] FolderList.nil, true, true⟩
        [⟨"a", 1, "u", "v", "w"⟩, ⟨"b", 2, "u", "v", "w"⟩]
        [⟨"a", 1, "u", "v", "w"⟩, ⟨"b", 2, "u", "v", "w"⟩] "a").localItems
      = [⟨"a", 1, "u", "v", "w"⟩, ⟨"b", 2, "u", "v", "w"⟩]
    ∧ (onDelete ⟨FolderTree.node false [⟨"o", true⟩] FolderList.nil, true, true⟩
        [⟨"a", 1, "u", "v", "w"⟩, ⟨"b", 2, "u", "v", "w"⟩]
        [⟨"a", 1, "u", "v", "w"⟩, ⟨"b", 2, "u", "v", "w"⟩] "a").remoteDocs
      = [⟨"a", 1, "u", "v", "w"⟩, ⟨"b", 2, "u", "v", "w"⟩] :=
  ⟨(C3_delete_rollback ⟨FolderTree.node false [⟨"o", true⟩] FolderList.nil, true, true⟩
      [⟨"a", 1, "u", "v", "w"⟩, ⟨"b", 2, "u", "v", "w"⟩]
      [⟨"a", 1, "u", "v", "w"⟩, ⟨"b", 2, "u", "v", "w"⟩] "a").1 (by decide),
   (C3_delete_rollback ⟨FolderTree.node false [⟨"o", true⟩] FolderList.nil, true, true⟩
      [⟨"a", 1, "u", "v", "w"⟩, ⟨"b", 2, "u", "v", "w"⟩]
      [⟨"a", 1, "u", "v", "w"⟩, ⟨"b", 2, "u", "v", "w"⟩] "a").2.1 (Or.inl (by decide))⟩

/-- C10: during `deleteFolder`, failures of individual `deleteObject` calls
are swallowed by their empty catch handlers — the promise resolves exactly
when every (recursive) `listAll` succeeds, regardless of how many object
deletions failed, and the objects whose deletion failed simply remain in the
listed folder.  Only a listing failure, a `deleteDoc` failure, or a failure
of the reindexing batch commit reaches the catch branch of `onDelete` that
rolls the local collection back. -/
theorem C10_swallowed_object_failures :
    (∀ t : FolderTree, (deleteFolder t).fst = allListOk t)
    ∧ (∀ (objs : List StorageObj) (subs : FolderList),
        (deleteFolder (FolderTree.node true objs subs)).snd
          = FolderTree.node true (objs.filter fun o => !o.deleteOk)
              (deleteFolderList subs).snd)
    ∧ (∀ (env : DeleteEnv) (docs items : List MediaItem) (tid : String),
        (onDelete env docs items tid).failed = true
          ↔ ((deleteFolder env.folder).fst = false ∨ env.deleteDocOk = false
              ∨ env.batchOk = false)) := by
  refine ⟨deleteFolder_fst_eq, fun objs subs => by simp [deleteFolder], ?_⟩
  intro env docs items tid
  by_cases h1 : (deleteFolder env.folder).fst = false
  · simp [onDelete, h1]
  · by_cases h2 : env.deleteDocOk = false
    · simp [onDelete, h1, h2]
    · by_cases h3 : env.batchOk = false
      · simp [onDelete, h1, h2, h3]
      · simp [onDelete, h1, h2, h3]

theorem round_mono_rat {x y : Rat} (h : x ≤ y) : round x ≤ round y := by
  rw [round_eq, round_eq]
  exact Int.floor_mono (by linarith)

theorem canvasDim_le_of {w m : Nat} {s : Rat} (hws : (w : Rat) * s ≤ (m : Rat))
    (hm : 1 ≤ m) : canvasDim w s ≤ m := by
  unfold canvasDim
  have h1 : round ((w : Rat) * s) ≤ (m : Int) := by
    have := round_mono_rat hws
    rwa [round_natCast] at this
  have h2 : max 1 (round ((w : Rat) * s)) ≤ (m : Int) := by
    apply max_le _ h1
    exact_mod_cast hm
  exact Int.toNat_le.mpr h2

theorem scaleFor_le_one (m w h : Nat) : scaleFor m w h ≤ 1 :=
  min_le_left _ _

theorem scaleFor_nonneg (m w h : Nat) : 0 ≤ scaleFor m w h := by
  unfold scaleFor
  exact le_min (by norm_num) (div_nonneg (by positivity) (by positivity))

theorem mul_scaleFor_le_maxDim {m w h d : Nat} (hd : d ≤ max w h)
    (hL : 0 < max w h) : (d : Rat) * scaleFor m w h ≤ (m : Rat) := by
  have hL' : (0 : Rat) < (max w h : Rat) := by exact_mod_cast hL
  calc (d : Rat) * scaleFor m w h
      ≤ (max w h : Rat) * ((m : Rat) / (max w h : Rat)) := by
        apply mul_le_mul (by exact_mod_cast hd) (min_le_right _ _)
          (scaleFor_nonneg m w h) (by positivity)
    _ = (m : Rat) := by
        rw [← mul_div_assoc]
        exact mul_div_cancel_left₀ _ (ne_of_gt hL')

theorem mul_scaleFor_le_self (m w h d : Nat) :
    (d : Rat) * scaleFor m w h ≤ (d : Rat) :=
  mul_le_of_le_one_right (by positivity) (scaleFor_le_one m w h)

/-- C5: an input whose declared type is JPEG, whose longer edge is at most
2200 and whose size is at most 2.5 MiB is passed through untouched — the
"optimized" output is the original file object; any other input is re-encoded
as a JPEG of the canvas drawn with scale factor
`min(1, 2400 / longestEdge)` at quality 0.9, whose edges never exceed 2400
pixels and never exceed the input dimensions (no upscaling). -/
theorem C5_transcoder_skip_rule (f : ImgFile) (hw : 1 ≤ f.width) (hh : 1 ≤ f.height) :
    (shouldSkipOptimization f = true →
        (makeOptimizedAndBlur f).optimizedBlob = Blob.orig f)
    ∧ (shouldSkipOptimization f = false →
        (makeOptimizedAndBlur f).optimizedBlob
          = Blob.jpeg (canvasDim f.width (scaleFor OPT_MAX_DIM f.width f.height))
              (canvasDim f.height (scaleFor OPT_MAX_DIM f.width f.height)) OPT_QUALITY
        ∧ canvasDim f.width (scaleFor OPT_MAX_DIM f.width f.height) ≤ OPT_MAX_DIM
        ∧ canvasDim f.height (scaleFor OPT_MAX_DIM f.width f.height) ≤ OPT_MAX_DIM
        ∧ canvasDim f.width (scaleFor OPT_MAX_DIM f.width f.height) ≤ f.width
        ∧ canvasDim f.height (scaleFor OPT_MAX_DIM f.width f.height) ≤ f.height
        ∧ scaleFor OPT_MAX_DIM f.width f.height ≤ 1
        ∧ OPT_QUALITY = 9 / 10) := by
  have hL : 0 < max f.width f.height := lt_of_lt_of_le hw (le_max_left _ _)
  constructor
  · intro h
    simp [makeOptimizedAndBlur, h]
  · intro h
    refine ⟨by simp [makeOptimizedAndBlur, drawToCanvasDims, h], ?_, ?_, ?_, ?_,
      scaleFor_le_one _ _ _, rfl⟩
    · exact canvasDim_le_of (mul_scaleFor_le_maxDim (le_max_left _ _) hL) (by norm_num [OPT_MAX_DIM])
    · exact canvasDim_le_of (mul_scaleFor_le_maxDim (le_max_right _ _) hL) (by norm_num [OPT_MAX_DIM])
    · exact canvasDim_le_of (mul_scaleFor_le_self _ _ _ _) hw
    · exact canvasDim_le_of (mul_scaleFor_le_self _ _ _ _) hh

theorem C5_transcoder_skip_rule_witness :
    (makeOptimizedAndBlur ⟨"image/jpeg", 1000, 2000, 1000⟩).optimizedBlob
      = Blob.orig ⟨"image/jpeg", 1000, 2000, 1000⟩ :=
  (C5_transcoder_skip_rule ⟨"image/jpeg", 1000, 2000, 1000⟩
      (by decide) (by decide)).1 (by decide)

/-- C6: when the existence check succeeds, the derived invite status is
`done` whenever the testimonial with the same token exists — regardless of
expiry — otherwise `expired` when `now ≥ expiresAt`, otherwise `pending`.
The status is computed from these inputs alone (the stored invite record has
no status field). -/
theorem C6_invite_status (nowMs expMs : Int) :
    inviteStatus true true nowMs expMs = InviteStatus.done
    ∧ (expMs ≤ nowMs → inviteStatus true false nowMs expMs = InviteStatus.expired)
    ∧ (nowMs < expMs → inviteStatus true false nowMs expMs = InviteStatus.pending) := by
  refine ⟨by simp [inviteStatus], ?_, ?_⟩
  · intro h
    simp [inviteStatus, h]
  · intro h
    have : ¬ expMs ≤ nowMs := not_le.mpr h
    simp [inviteStatus, this]

theorem C6_invite_status_witness :
    inviteStatus true true 90000000 86400000 = InviteStatus.done
    ∧ inviteStatus true false 90000000 86400000 = InviteStatus.expired
    ∧ inviteStatus true false 82800000 86400000 = InviteStatus.pending :=
  ⟨(C6_invite_status 90000000 86400000).1,
   (C6_invite_status 90000000 86400000).2.1 (by decide),
   (C6_invite_status 82800000 86400000).2.2 (by decide)⟩

/-- C9 counterexample: with the client clock at 0 ms and the server clock at
1000 ms, `createInvite` stores `expiresAt = 0 + 24h = 86400000` while
`createdAt = 1000`, so the stored deadline is not `createdAt + 24h`: the 24
hours are measured from the client clock reading `Date.now()`, not from the
server-assigned creation timestamp. -/
theorem C9_counterexample :
    ((createInvite 0 1000 "tok" "admin" "Wedding" "Alice" "" none "http").map
        fun r => r.expiresAt) = some 86400000
    ∧ ((createInvite 0 1000 "tok" "admin" "Wedding" "Alice" "" none "http").map
        fun r => r.createdAt) = some 1000
    ∧ (86400000 : Int) ≠ 1000 + 24 * 60 * 60 * 1000 := by
  refine ⟨?_, ?_, ?_⟩ <;> decide

/-- C9 (amended): for every invite the admin creates, the stored `expiresAt`
deadline equals the client clock reading at creation time plus exactly 24
hours (it is `Date.now() + 24*60*60*1000`, not the server-assigned
`createdAt` plus 24 hours); the 24-hour duration is fixed — `createInvite`
takes no duration input — and not configurable per invite. -/
theorem C9_expiry_24h (clientNowMs serverNowMs : Int)
    (token adminUid eventName clientName eventPlace : String)
    (eventDate : Option Int) (avatarUrl : String) (r : InviteRecord)
    (h : createInvite clientNowMs serverNowMs token adminUid eventName clientName
          eventPlace eventDate avatarUrl = some r) :
    r.expiresAt = clientNowMs + 24 * 60 * 60 * 1000 := by
  unfold createInvite at h
  split at h
  · exact absurd h (by simp)
  · split at h
    · exact absurd h (by simp)
    · injection h with h2
      rw [← h2]

theorem C9_expiry_24h_witness :
    (({ token := "tok", adminUid := "admin", event := "Wedding",
        clientName := "Alice", eventPlace := none, eventDate := none,
        avatarUrl := "http", createdAt := 99,
        expiresAt := 86400005 } : InviteRecord)).expiresAt
      = 5 + 24 * 60 * 60 * 1000 :=
  C9_expiry_24h 5 99 "tok" "admin" "Wedding" "Alice" "" none "http" _ (by decide)

theorem onSubmit_rejects_used (token : String) (inv : Invite) (nowMs : Int)
    (writeOk : Bool) (stars : Nat) (d : String) (s : SubmitState)
    (h : s.alreadyUsed = true) :
    onSubmit token inv nowMs writeOk stars d s
      = ⟨s.alreadyUsed, s.submitted, some "This link has already been used.",
          s.remote⟩ := by
  simp [onSubmit, h]

theorem onSubmit_accepts (token : String) (inv : Invite) (nowMs : Int)
    (stars : Nat) (d : String) (s : SubmitState)
    (hexp : nowMs < inv.expiresAt) (hused : s.alreadyUsed = false)
    (hname : ¬ jsTrim inv.clientName = "") (hevent : ¬ jsTrim inv.event = "")
    (hd : ¬ jsTrim d = "") (h1 : 1 ≤ stars) (h5 : stars ≤ 5) :
    onSubmit token inv nowMs true stars d s
      = ⟨true, true, none,
          some ⟨token, jsTrim inv.clientName, jsTrim inv.event, stars, jsTrim d⟩⟩ := by
  have e1 : submitExpired inv nowMs = false := by
    simp [submitExpired]
    omega
  have e5 : decide (stars < 1) = false := by
    simp
    omega
  have e6 : decide (5 < stars) = false := by
    simp
    omega
  simp [onSubmit, e1, e5, e6, hused, hname, hevent, hd]
  omega

/-- C7: from a fresh session on a valid, unexpired, unused invite, the first
submission writes the testimonial record keyed by the token, and a second
submission — at any later time, with any inputs — is rejected with the
"already used" message before any remote write: the remote record is exactly
the one the first submission wrote, so at most one testimonial per token is
created from the perspective of a single session. -/
theorem C7_single_submission (token : String) (inv : Invite) (now1 : Int)
    (stars1 : Nat) (d1 : String) (s : SubmitState)
    (hexp : now1 < inv.expiresAt) (hused : s.alreadyUsed = false)
    (hname : ¬ jsTrim inv.clientName = "") (hevent : ¬ jsTrim inv.event = "")
    (hd : ¬ jsTrim d1 = "") (h1 : 1 ≤ stars1) (h5 : stars1 ≤ 5) :
    onSubmit token inv now1 true stars1 d1 s
      = ⟨true, true, none,
          some ⟨token, jsTrim inv.clientName, jsTrim inv.event, stars1, jsTrim d1⟩⟩
    ∧ ∀ (now2 : Int) (writeOk2 : Bool) (stars2 : Nat) (d2 : String),
        onSubmit token inv now2 writeOk2 stars2 d2
            (onSubmit token inv now1 true stars1 d1 s)
          = ⟨true, true, some "This link has already been used.",
              some ⟨token, jsTrim inv.clientName, jsTrim inv.event, stars1, jsTrim d1⟩⟩ := by
  have hA := onSubmit_accepts token inv now1 stars1 d1 s hexp hused hname hevent hd h1 h5
  refine ⟨hA, ?_⟩
  intro now2 writeOk2 stars2 d2
  rw [hA]
  exact onSubmit_rejects_used token inv now2 writeOk2 stars2 d2 _ rfl

theorem C7_single_submission_witness :
    onSubmit "t" ⟨"Alice", "Wedding", 100⟩ 0 true 5 "Great" ⟨false, false, none, none⟩
      = ⟨true, true, none,
          some ⟨"t", jsTrim "Alice", jsTrim "Wedding", 5, jsTrim "Great"⟩⟩
    ∧ onSubmit "t" ⟨"Alice", "Wedding", 100⟩ 50 true 5 "Again"
        (onSubmit "t" ⟨"Alice", "Wedding", 100⟩ 0 true 5 "Great" ⟨false, false, none, none⟩)
      = ⟨true, true, some "This link has already been used.",
          some ⟨"t", jsTrim "Alice", jsTrim "Wedding", 5, jsTrim "Great"⟩⟩ :=
  ⟨(C7_single_submission "t" ⟨"Alice", "Wedding", 100⟩ 0 5 "Great" ⟨false, false, none, none⟩
      (by decide) rfl (by decide) (by decide) (by decide) (by decide) (by decide)).1,
   (C7_single_submission "t" ⟨"Alice", "Wedding", 100⟩ 0 5 "Great" ⟨false, false, none, none⟩
      (by decide) rfl (by decide) (by decide) (by decide) (by decide) (by decide)).2
     50 true 5 "Again"⟩

/-- C8: a submission whose star rating lies outside 1..5 (in particular 0 or
6) or whose trimmed description is empty is rejected before any remote call —
the remote testimonial document is untouched and an error is shown — while a
submission with stars in 1..5 (in particular 1 or 5) and a non-empty
description on a valid, unexpired, unused invite is accepted and written. -/
theorem C8_rating_bounds (token : String) (inv : Invite) (nowMs : Int)
    (writeOk : Bool) (stars : Nat) (d : String) (s : SubmitState) :
    ((stars < 1 ∨ 5 < stars ∨ jsTrim d = "") →
        (onSubmit token inv nowMs writeOk stars d s).remote = s.remote
        ∧ (onSubmit token inv nowMs writeOk stars d s).error ≠ none)
    ∧ (nowMs < inv.expiresAt → s.alreadyUsed = false →
        ¬ jsTrim inv.clientName = "" → ¬ jsTrim inv.event = "" →
        ¬ jsTrim d = "" → 1 ≤ stars → stars ≤ 5 → writeOk = true →
        (onSubmit token inv nowMs writeOk stars d s).remote
          = some ⟨token, jsTrim inv.clientName, jsTrim inv.event, stars, jsTrim d⟩
        ∧ (onSubmit token inv nowMs writeOk stars d s).submitted = true) := by
  constructor
  · intro hbad
    by_cases hu : (submitExpired inv nowMs || s.alreadyUsed) = true
    · constructor <;> simp [onSubmit, hu]
    · rcases hbad with h | h | h
      · have h0 : stars = 0 := by omega
        subst h0
        constructor <;> simp [onSubmit, hu]
      · constructor <;> simp [onSubmit, hu, h]
      · constructor <;> simp [onSubmit, hu, h]
  · intro hexp hused hname hevent hd h1 h5 hw
    subst hw
    rw [onSubmit_accepts token inv nowMs stars d s hexp hused hname hevent hd h1 h5]
    exact ⟨rfl, rfl⟩

theorem C8_rating_bounds_witness :
    ((onSubmit "t" ⟨"Alice", "Wedding", 100⟩ 0 true 0 "Great"
        ⟨false, false, none, none⟩).remote
      = (⟨false, false, none, none⟩ : SubmitState).remote
    ∧ (onSubmit "t" ⟨"Alice", "Wedding", 100⟩ 0 true 0 "Great"
        ⟨false, false, none, none⟩).error ≠ none)
    ∧ (onSubmit "t" ⟨"Alice", "Wedding", 100⟩ 0 true 1 "Great"
        ⟨false, false, none, none⟩).remote
      = some ⟨"t", jsTrim "Alice", jsTrim "Wedding", 1, jsTrim "Great"⟩
    ∧ (onSubmit "t" ⟨"Alice", "Wedding", 100⟩ 0 true 1 "Great"
        ⟨false, false, none, none⟩).submitted = true :=
  ⟨(C8_rating_bounds "t" ⟨"Alice", "Wedding", 100⟩ 0 true 0 "Great"
      ⟨false, false, none, none⟩).1 (Or.inl (by decide)),
   (C8_rating_bounds "t" ⟨"Alice", "Wedding", 100⟩ 0 true 1 "Great"
      ⟨false, false, none, none⟩).2 (by decide) rfl (by decide) (by decide)
     (by decide) (by decide) (by decide) rfl⟩
